import Mathlib

/-!
Shallow embedding of `src/launch.rs` (the `Launcher::launch` routine of the
cyclesys/editor repository) together with a model, taken from the spec, of the
channel handshake protocol whose code lives in the `channel` module that is
not part of the given sources.

OS calls are modelled by an oracle (`OsBehavior`) giving the result of each
Win32 call the Rust code makes, and `Launcher.launch` additionally returns the
trace of OS calls it performed, with the exact arguments the source passes.
-/

/-- A Win32 `HANDLE` value. Modelled as an integer so that the
`INVALID_HANDLE_VALUE` sentinel (-1) is representable. -/
abbrev Handle := Int

/-- The `INVALID_HANDLE_VALUE` sentinel passed by the source as the backing
file of the file mapping. -/
def INVALID_HANDLE_VALUE : Handle := -1

/-- The `PAGE_READWRITE` protection constant (0x04). -/
def PAGE_READWRITE : Nat := 4

/-- Modelled from the spec: `CHANNEL_SIZE` is the fixed channel buffer size
constant defined in the `channel` module, which is not among the given
sources; the spec's end-to-end scenario uses 4096. Its exact value is
irrelevant to every theorem below. -/
def CHANNEL_SIZE : Nat := 4096

/-- The `windows::core::Error` type: an OS error, carrying the OS-reported code. -/
structure WindowsError where
  code : Nat
deriving DecidableEq

/-- Modelled from the spec: the error type of the `channel` module (not among
the given sources); an opaque protocol-level failure payload. -/
structure ChannelError where
  code : Nat
deriving DecidableEq

/-- The `SECURITY_ATTRIBUTES` record as filled in by `Launcher::launch`: the descriptor
pointer is modelled as a flag (`false` = null). -/
structure SECURITY_ATTRIBUTES where
  nLength : Nat
  lpSecurityDescriptorNull : Bool
  bInheritHandle : Bool
deriving DecidableEq

/-- The `handle_attr` local of `Launcher::launch`: null descriptor,
`bInheritHandle: true.into()`. The `nLength` size-of field is modelled as an
uninterpreted constant 24. -/
def handle_attr : SECURITY_ATTRIBUTES :=
  { nLength := 24, lpSecurityDescriptorNull := true, bInheritHandle := true }

/-- The `PROCESS_INFORMATION` record as returned by `CreateProcessW`. -/
structure PROCESS_INFORMATION where
  hProcess : Handle
  hThread : Handle
  dwProcessId : Nat
  dwThreadId : Nat
deriving DecidableEq

/-- The `ChannelArgs` record of the `channel` module, as constructed by
`Launcher::launch`: the executable path plus the four primitive handles. -/
structure ChannelArgs where
  exe : String
  file : Handle
  mutex : Handle
  wait_event : Handle
  signal_event : Handle
deriving DecidableEq

/-- Modelled from the spec: `ChannelArgs::to_cmd_line` (in the `channel`
module, not among the given sources) serializes the executable path and the
four primitive identities into a single argument string, as a pure function
of the bundle's identities (spec 4.2). -/
def ChannelArgs.to_cmd_line (a : ChannelArgs) : String :=
  a.exe ++ " " ++ toString a.file ++ " " ++ toString a.mutex ++ " " ++
    toString a.wait_event ++ " " ++ toString a.signal_event

/-- Modelled from the spec: a `Channel` owns its `SynchronizationBundle`
(spec section 3); its further internals are not among the given sources. -/
structure Channel where
  args : ChannelArgs
deriving DecidableEq

/-- The `Error` enum of `launch.rs`: channel-layer versus underlying-OS
failure. -/
inductive Error where
  | ChannelErr (e : ChannelError)
  | Windows (e : WindowsError)
deriving DecidableEq

/-- The `result_from_channel` helper from `launch.rs`. -/
def result_from_channel {T : Type} (channel_result : Except ChannelError T) :
    Except Error T :=
  match channel_result with
  | .ok res => .ok res
  | .error channel_error => .error (Error.ChannelErr channel_error)

/-- The `result_from_windows` helper from `launch.rs`. -/
def result_from_windows {T : Type} (windows_result : Except WindowsError T) :
    Except Error T :=
  match windows_result with
  | .ok res => .ok res
  | .error windows_error => .error (Error.Windows windows_error)

/-- The `Child` record from `launch.rs`: a process-information record paired with its
channel. -/
structure Child where
  info : PROCESS_INFORMATION
  channel : Channel
deriving DecidableEq

/-- The `Launcher` record from `launch.rs`: the ordered collection of children. -/
structure Launcher where
  children : List Child
deriving DecidableEq

/-- One OS call as issued by `Launcher::launch`, with the arguments the
source passes. `closeHandle` and `terminateProcess` are included so that
"no cleanup call is ever issued" is a statement about the trace rather than
about the trace type. -/
inductive OsCall where
  | createFileMappingW (hFile : Handle) (attr : Option SECURITY_ATTRIBUTES)
      (flProtect : Nat) (maxSizeHigh : Nat) (maxSizeLow : Nat)
      (name : Option String)
  | createMutexW (attr : Option SECURITY_ATTRIBUTES) (bInitialOwner : Bool)
      (name : Option String)
  | createEventW (attr : Option SECURITY_ATTRIBUTES) (bManualReset : Bool)
      (bInitialState : Bool) (name : Option String)
  | createProcessW (appName : Option String) (cmdLine : String)
      (bInheritHandles : Bool) (creationFlags : Nat)
      (environment : Option String) (currentDirectory : Option String)
  | closeHandle (h : Handle)
  | terminateProcess (h : Handle)
deriving DecidableEq

/-- The oracle for one `launch` attempt: the result the OS (and the channel
module) would return for each call, in source order. A result for a call the
control flow never reaches is simply unused. -/
structure OsBehavior where
  fileMappingRes : Except WindowsError Handle
  mutexRes : Except WindowsError Handle
  waitEventRes : Except WindowsError Handle
  signalEventRes : Except WindowsError Handle
  createProcessRes : Except WindowsError PROCESS_INFORMATION
  channelCreateRes : Except ChannelError Unit

/-- Modelled from the spec: `Channel::create` (in the `channel` module, not
among the given sources) finalizes a `Channel` around the bundle, or fails
with a channel-layer error; the oracle decides which. -/
def Channel.create (os : OsBehavior) (args : ChannelArgs) :
    Except ChannelError Channel :=
  match os.channelCreateRes with
  | .ok _ => .ok { args := args }
  | .error e => .error e

/-- The `Launcher::launch` routine from `launch.rs`, with the OS calls resolved through
the oracle. Returns the Rust function's result, the updated launcher, and
the trace of OS calls issued (in order, with the arguments of the source:
inheritable attribute on all four creations, `INVALID_HANDLE_VALUE` and
`CHANNEL_SIZE` for the file mapping, initially-owned mutex, manual-reset
non-signaled events, and `CreateProcessW` with inheritance enabled and
default flags/environment/directory). Each `?` of the source is an early
return carrying the trace so far; no `closeHandle` or `terminateProcess`
is ever issued, matching the source, whose `HANDLE` values are plain `Copy`
data with no drop glue. -/
def Launcher.launch (l : Launcher) (os : OsBehavior) (exe : String) :
    Except Error Unit × Launcher × List OsCall :=
  let t1 := [OsCall.createFileMappingW INVALID_HANDLE_VALUE (some handle_attr)
      PAGE_READWRITE 0 CHANNEL_SIZE none]
  match result_from_windows os.fileMappingRes with
  | .error e => (.error e, l, t1)
  | .ok file =>
    let t2 := t1 ++ [OsCall.createMutexW (some handle_attr) true none]
    match result_from_windows os.mutexRes with
    | .error e => (.error e, l, t2)
    | .ok mutex =>
      let t3 := t2 ++ [OsCall.createEventW (some handle_attr) true false none]
      match result_from_windows os.waitEventRes with
      | .error e => (.error e, l, t3)
      | .ok wait_event =>
        let t4 := t3 ++ [OsCall.createEventW (some handle_attr) true false none]
        match result_from_windows os.signalEventRes with
        | .error e => (.error e, l, t4)
        | .ok signal_event =>
          let args : ChannelArgs :=
            { exe := exe, file := file, mutex := mutex,
              wait_event := wait_event, signal_event := signal_event }
          let t5 := t4 ++ [OsCall.createProcessW none args.to_cmd_line true 0
              none none]
          match os.createProcessRes with
          | .error e => (.error (Error.Windows e), l, t5)
          | .ok info =>
            match result_from_channel (Channel.create os args) with
            | .error e => (.error e, l, t5)
            | .ok channel =>
              (.ok (), { children := l.children ++ [{ info := info, channel := channel }] }, t5)

/-- Whether the security-attribute argument of a creation call is a non-null
attribute whose inherit-handle flag is set. -/
def attrInheritable : Option SECURITY_ATTRIBUTES → Bool
  | some a => a.bInheritHandle
  | none => false

/-- A call makes its result inheritable by the child: each of the four
primitive creations passes an attribute with the inherit flag set, and the
process creation passes `bInheritHandles = true`. Cleanup calls are not
creation calls and count vacuously. -/
def OsCall.inheritableB : OsCall → Bool
  | .createFileMappingW _ attr _ _ _ _ => attrInheritable attr
  | .createMutexW attr _ _ => attrInheritable attr
  | .createEventW attr _ _ _ => attrInheritable attr
  | .createProcessW _ _ bInheritHandles _ _ _ => bInheritHandles
  | .closeHandle _ => true
  | .terminateProcess _ => true

/-- Every mutex-creation call in a trace passes initial-owner = true
(vacuous for the other call kinds). -/
def OsCall.mutexOwnedB : OsCall → Bool
  | .createMutexW _ bInitialOwner _ => bInitialOwner
  | _ => true

/-- Every event-creation call in a trace is manual-reset and initially
unsignaled (vacuous for the other call kinds). -/
def OsCall.eventFlagsB : OsCall → Bool
  | .createEventW _ bManualReset bInitialState _ => bManualReset && !bInitialState
  | _ => true

/-- Every file-mapping creation call in a trace is backed by the paging file
(`INVALID_HANDLE_VALUE` as the file), read-write, of exactly `CHANNEL_SIZE`
bytes (high size word 0), and unnamed (vacuous for the other call kinds). -/
def OsCall.fileMappingShapeB : OsCall → Bool
  | .createFileMappingW hFile _ flProtect maxSizeHigh maxSizeLow name =>
      (hFile == INVALID_HANDLE_VALUE) && (flProtect == PAGE_READWRITE) &&
        (maxSizeHigh == 0) && (maxSizeLow == CHANNEL_SIZE) && name.isNone
  | _ => true

/-- A cleanup call: closing a handle or terminating a process. -/
def OsCall.isCleanupB : OsCall → Bool
  | .closeHandle _ => true
  | .terminateProcess _ => true
  | _ => false

/-- This definition follows the spec's words (sections 4.5 and 7), not the
source: a launch attempt returns success or the FIRST error encountered, in
the order file mapping → mutex → ready event → ack event → process creation
→ channel finalization; every primitive-creation or process-creation failure
surfaces verbatim as the `Windows` variant, and only a channel-finalization
failure as the `ChannelErr` variant. -/
def specLaunchResult (os : OsBehavior) : Except Error Unit :=
  match os.fileMappingRes with
  | .error e => .error (Error.Windows e)
  | .ok _ =>
    match os.mutexRes with
    | .error e => .error (Error.Windows e)
    | .ok _ =>
      match os.waitEventRes with
      | .error e => .error (Error.Windows e)
      | .ok _ =>
        match os.signalEventRes with
        | .error e => .error (Error.Windows e)
        | .ok _ =>
          match os.createProcessRes with
          | .error e => .error (Error.Windows e)
          | .ok _ =>
            match os.channelCreateRes with
            | .error e => .error (Error.ChannelErr e)
            | .ok _ => .ok ()

/-- A model of the OS allocator used to reason about sequences of launches:
`nextHandle` is the least handle value the OS has not yet handed out (the OS
never returns a value that is still in use), `nextPid` likewise for process
and thread identifiers. -/
structure World where
  nextHandle : Handle
  nextPid : Nat

/-- Which of the six fallible steps of one launch attempt succeed, and the
error payloads used for the ones that fail. -/
structure LaunchSchedule where
  fileMappingOk : Bool
  mutexOk : Bool
  waitEventOk : Bool
  signalEventOk : Bool
  processOk : Bool
  channelOk : Bool
  osErr : WindowsError
  chanErr : ChannelError

/-- The oracle a world induces under a schedule: each successful creation
hands out the next fresh handle values, process creation hands out fresh
process and thread handles and identifiers. -/
def mkOsBehavior (w : World) (s : LaunchSchedule) : OsBehavior where
  fileMappingRes :=
    if s.fileMappingOk then .ok w.nextHandle else .error s.osErr
  mutexRes :=
    if s.mutexOk then .ok (w.nextHandle + 1) else .error s.osErr
  waitEventRes :=
    if s.waitEventOk then .ok (w.nextHandle + 2) else .error s.osErr
  signalEventRes :=
    if s.signalEventOk then .ok (w.nextHandle + 3) else .error s.osErr
  createProcessRes :=
    if s.processOk then
      .ok { hProcess := w.nextHandle + 4, hThread := w.nextHandle + 5,
            dwProcessId := w.nextPid, dwThreadId := w.nextPid + 1 }
    else .error s.osErr
  channelCreateRes :=
    if s.channelOk then .ok () else .error s.chanErr

/-- Advance the allocator past every value one launch attempt may have
consumed. -/
def World.advance (w : World) : World :=
  { nextHandle := w.nextHandle + 6, nextPid := w.nextPid + 2 }

/-- One launch attempt against the allocator model. -/
def runLaunch (w : World) (l : Launcher) (s : LaunchSchedule) (exe : String) :
    (Except Error Unit × Launcher × List OsCall) × World :=
  (Launcher.launch l (mkOsBehavior w s) exe, w.advance)

/-- A sequence of launch attempts on one `Launcher`, each with its own
schedule and executable path. -/
def runLaunches (w : World) (l : Launcher) :
    List (LaunchSchedule × String) → Launcher × World
  | [] => (l, w)
  | (s, exe) :: rest =>
      let r := runLaunch w l s exe
      runLaunches r.2 r.1.2.1 rest

/-- Modelled from the spec: the program counter of the write path of section
4.4 — acquire `lock` → copy payload into the slot → release `lock` → set
`ready_event` → block on `ack_event` → reset `ack_event` → return (and the
next write invocation begins at `acquire` again). -/
inductive WriterPc where
  | acquire
  | copy
  | release
  | setReady
  | waitAck
  | resetAck
deriving DecidableEq

/-- Modelled from the spec: the program counter of the read path of section
4.4 — block on `ready_event` → reset `ready_event` → acquire `lock` → read
the slot → release `lock` → set `ack_event` → return (and the next read
begins at `waitReady` again). -/
inductive ReaderPc where
  | waitReady
  | resetReady
  | acquire
  | readSlot
  | release
  | setAck
deriving DecidableEq

/-- Who holds the mutual-exclusion lock of the channel. -/
inductive LockState where
  | free
  | byWriter
  | byReader
deriving DecidableEq

/-- Modelled from the spec: the joint state of one direction of the channel
handshake protocol of section 4.4 — the shared flags (`lock`, the two
events) and slot, the two program counters, and two history counters:
`written` counts copy steps performed, `acked` counts acknowledgment signals
performed, so `written - acked` is the number of in-flight messages. The
k-th write invocation carries payload k. -/
structure ChanState where
  wp : WriterPc
  rp : ReaderPc
  lock : LockState
  ready : Bool
  ack : Bool
  slot : Option Nat
  written : Nat
  acked : Nat
deriving DecidableEq

/-- Modelled from the spec: one step of the write path. Guards: acquiring
the lock requires it free; the wait on `ack_event` fires only when the event
is set. The copy step overwrites the slot with the current invocation's
payload unconditionally — back-pressure must come from the protocol, not
from this step. -/
inductive WriterStep : ChanState → ChanState → Prop where
  | acquire (s : ChanState) (hpc : s.wp = .acquire) (hl : s.lock = .free) :
      WriterStep s { s with wp := .copy, lock := .byWriter }
  | copy (s : ChanState) (hpc : s.wp = .copy) :
      WriterStep s { s with wp := .release, slot := some s.written,
                            written := s.written + 1 }
  | release (s : ChanState) (hpc : s.wp = .release) :
      WriterStep s { s with wp := .setReady, lock := .free }
  | setReady (s : ChanState) (hpc : s.wp = .setReady) :
      WriterStep s { s with wp := .waitAck, ready := true }
  | waitAck (s : ChanState) (hpc : s.wp = .waitAck) (ha : s.ack = true) :
      WriterStep s { s with wp := .resetAck }
  | resetAck (s : ChanState) (hpc : s.wp = .resetAck) :
      WriterStep s { s with wp := .acquire, ack := false }

/-- Modelled from the spec: one step of the read path. Guards: the wait on
`ready_event` fires only when the event is set; acquiring the lock requires
it free. -/
inductive ReaderStep : ChanState → ChanState → Prop where
  | waitReady (s : ChanState) (hpc : s.rp = .waitReady) (hr : s.ready = true) :
      ReaderStep s { s with rp := .resetReady }
  | resetReady (s : ChanState) (hpc : s.rp = .resetReady) :
      ReaderStep s { s with rp := .acquire, ready := false }
  | acquire (s : ChanState) (hpc : s.rp = .acquire) (hl : s.lock = .free) :
      ReaderStep s { s with rp := .readSlot, lock := .byReader }
  | readSlot (s : ChanState) (hpc : s.rp = .readSlot) :
      ReaderStep s { s with rp := .release }
  | release (s : ChanState) (hpc : s.rp = .release) :
      ReaderStep s { s with rp := .setAck, lock := .free }
  | setAck (s : ChanState) (hpc : s.rp = .setAck) :
      ReaderStep s { s with rp := .waitReady, ack := true,
                            acked := s.acked + 1 }

/-- Modelled from the spec: the handshake starts with both sides idle, the
lock free (the creator has released its construction-time ownership, as in
the liveness scenario of section 8), both events unsignaled, and the slot
empty. -/
def chanInit : ChanState :=
  { wp := .acquire, rp := .waitReady, lock := .free, ready := false,
    ack := false, slot := none, written := 0, acked := 0 }

/-- The states of one direction of the handshake reachable from the initial
state by interleaving write-path and read-path steps. -/
inductive Reach : ChanState → Prop where
  | init : Reach chanInit
  | stepW {s t : ChanState} : Reach s → WriterStep s t → Reach t
  | stepR {s t : ChanState} : Reach s → ReaderStep s t → Reach t

/-- The slot content as a function of the number of copies performed: empty
before the first copy, afterwards the payload of the latest copy. -/
def slotOf : Nat → Option Nat
  | 0 => none
  | n + 1 => some n

/-- The twelve phases of one handshake round, in the order they occur. -/
inductive Phase where
  | p1 | p2 | p3 | p4 | p5 | p6 | p7 | p8 | p9 | p10 | p11 | p12
deriving DecidableEq

/-- The joint state of the two sides in phase `i` of round `n` (with `n`
completed rounds behind them). The protocol admits exactly these states:
each side's waits make the interleaving lock-step. -/
def chanShape (n : Nat) : Phase → ChanState
  | .p1 => { wp := .acquire, rp := .waitReady, lock := .free, ready := false,
             ack := false, slot := slotOf n, written := n, acked := n }
  | .p2 => { wp := .copy, rp := .waitReady, lock := .byWriter, ready := false,
             ack := false, slot := slotOf n, written := n, acked := n }
  | .p3 => { wp := .release, rp := .waitReady, lock := .byWriter,
             ready := false, ack := false, slot := slotOf (n + 1),
             written := n + 1, acked := n }
  | .p4 => { wp := .setReady, rp := .waitReady, lock := .free, ready := false,
             ack := false, slot := slotOf (n + 1), written := n + 1,
             acked := n }
  | .p5 => { wp := .waitAck, rp := .waitReady, lock := .free, ready := true,
             ack := false, slot := slotOf (n + 1), written := n + 1,
             acked := n }
  | .p6 => { wp := .waitAck, rp := .resetReady, lock := .free, ready := true,
             ack := false, slot := slotOf (n + 1), written := n + 1,
             acked := n }
  | .p7 => { wp := .waitAck, rp := .acquire, lock := .free, ready := false,
             ack := false, slot := slotOf (n + 1), written := n + 1,
             acked := n }
  | .p8 => { wp := .waitAck, rp := .readSlot, lock := .byReader,
             ready := false, ack := false, slot := slotOf (n + 1),
             written := n + 1, acked := n }
  | .p9 => { wp := .waitAck, rp := .release, lock := .byReader,
             ready := false, ack := false, slot := slotOf (n + 1),
             written := n + 1, acked := n }
  | .p10 => { wp := .waitAck, rp := .setAck, lock := .free, ready := false,
              ack := false, slot := slotOf (n + 1), written := n + 1,
              acked := n }
  | .p11 => { wp := .waitAck, rp := .waitReady, lock := .free, ready := false,
              ack := true, slot := slotOf (n + 1), written := n + 1,
              acked := n + 1 }
  | .p12 => { wp := .resetAck, rp := .waitReady, lock := .free,
              ready := false, ack := true, slot := slotOf (n + 1),
              written := n + 1, acked := n + 1 }

/-- The inductive invariant of the handshake: every reachable state is one
of the twelve phases of some round. -/
def ChanInv (s : ChanState) : Prop :=
  ∃ n i, s = chanShape n i

/-- The invariant tying a launcher to the allocator model: every process
handle and file-mapping handle recorded in a child was handed out earlier
(is below `nextHandle`), and no two children share a process handle or a
channel. -/
def LaunchInv (w : World) (l : Launcher) : Prop :=
  (∀ c ∈ l.children,
      c.info.hProcess < w.nextHandle ∧ c.channel.args.file < w.nextHandle) ∧
  l.children.Pairwise
    (fun a b => a.info.hProcess ≠ b.info.hProcess ∧ a.channel ≠ b.channel)

/-- A behavior in which the third of the four primitive creations (the first
event) fails with OS error 1450 (`ERROR_NO_SYSTEM_RESOURCES`) after the file
mapping (handle 4) and the mutex (handle 5) were created successfully. -/
def thirdCreationFails : OsBehavior where
  fileMappingRes := .ok 4
  mutexRes := .ok 5
  waitEventRes := .error { code := 1450 }
  signalEventRes := .ok 6
  createProcessRes :=
    .ok { hProcess := 8, hThread := 9, dwProcessId := 1, dwThreadId := 2 }
  channelCreateRes := .ok ()

/-- Claim C2: `launch` is transactional with respect to the `Launcher`'s
child collection — whenever a call to `launch` returns an error (be it a
primitive-creation, process-creation or channel-finalization failure) the
children collection is unchanged: no entry is appended and no half-created
bundle is attached to a `Child` entry. -/
theorem launch_error_children_unchanged (l : Launcher) (os : OsBehavior)
    (exe : String) (e : Error)
    (h : (Launcher.launch l os exe).1 = .error e) :
    (Launcher.launch l os exe).2.1 = l := by
  obtain ⟨fr, mr, wr, sr, pr, cr⟩ := os
  cases fr <;> cases mr <;> cases wr <;> cases sr <;> cases pr <;> cases cr <;>
    simp_all [Launcher.launch, result_from_windows, result_from_channel,
      Channel.create]

/-- Witness for C2: a launch whose very first creation call fails leaves an
empty launcher empty. -/
theorem launch_error_children_unchanged_witness :
    (Launcher.launch { children := [] }
        { fileMappingRes := .error { code := 5 }, mutexRes := .ok 0,
          waitEventRes := .ok 0, signalEventRes := .ok 0,
          createProcessRes := .ok
            { hProcess := 0, hThread := 0, dwProcessId := 0, dwThreadId := 0 },
          channelCreateRes := .ok () } "x").2.1 =
      { children := [] } :=
  launch_error_children_unchanged { children := [] } _ "x"
    (Error.Windows { code := 5 }) rfl

/-- Claim C7: `launch` returns either success or the first error
encountered; the error type distinguishes the channel layer from the OS
layer, every failing primitive-creation or process-creation call yields the
`Windows` variant carrying the OS-reported cause verbatim, and only a
channel-finalization failure yields the `ChannelErr` variant. -/
theorem launch_returns_first_error (l : Launcher) (os : OsBehavior)
    (exe : String) :
    (Launcher.launch l os exe).1 = specLaunchResult os := by
  obtain ⟨fr, mr, wr, sr, pr, cr⟩ := os
  cases fr <;> cases mr <;> cases wr <;> cases sr <;> cases pr <;> cases cr <;>
    simp [Launcher.launch, specLaunchResult, result_from_windows,
      result_from_channel, Channel.create]

/-- Claim C3: every OS call made by `launch` that creates a primitive passes
a security attribute with the inherit-handle flag set, and the
process-creation call passes handle inheritance enabled; on a fully
successful attempt the trace is exactly the four inheritable creations
followed by the inheriting process creation. -/
theorem launch_inheritable (l : Launcher) (os : OsBehavior) (exe : String)
    (f m wv sv : Handle) (info : PROCESS_INFORMATION) :
    ((Launcher.launch l os exe).2.2.all OsCall.inheritableB = true) ∧
    (Launcher.launch l
        { fileMappingRes := .ok f, mutexRes := .ok m, waitEventRes := .ok wv,
          signalEventRes := .ok sv, createProcessRes := .ok info,
          channelCreateRes := .ok () } exe).2.2 =
      [OsCall.createFileMappingW INVALID_HANDLE_VALUE (some handle_attr)
         PAGE_READWRITE 0 CHANNEL_SIZE none,
       OsCall.createMutexW (some handle_attr) true none,
       OsCall.createEventW (some handle_attr) true false none,
       OsCall.createEventW (some handle_attr) true false none,
       OsCall.createProcessW none
         (ChannelArgs.to_cmd_line
           { exe := exe, file := f, mutex := m, wait_event := wv,
             signal_event := sv }) true 0 none none] := by
  constructor
  · obtain ⟨fr, mr, wr, sr, pr, cr⟩ := os
    cases fr <;> cases mr <;> cases wr <;> cases sr <;> cases pr <;>
      cases cr <;>
      simp [Launcher.launch, result_from_windows, result_from_channel,
        Channel.create, OsCall.inheritableB, attrInheritable, handle_attr]
  · rfl

/-- Claim C4: the mutex of every bundle is created with
initial-owner = true; every mutex creation in any trace passes it, and a
successful attempt does contain the initially-owned mutex creation. -/
theorem mutex_initially_owned (l : Launcher) (os : OsBehavior) (exe : String)
    (f m wv sv : Handle) (info : PROCESS_INFORMATION) :
    ((Launcher.launch l os exe).2.2.all OsCall.mutexOwnedB = true) ∧
    OsCall.createMutexW (some handle_attr) true none ∈
      (Launcher.launch l
        { fileMappingRes := .ok f, mutexRes := .ok m, waitEventRes := .ok wv,
          signalEventRes := .ok sv, createProcessRes := .ok info,
          channelCreateRes := .ok () } exe).2.2 := by
  constructor
  · obtain ⟨fr, mr, wr, sr, pr, cr⟩ := os
    cases fr <;> cases mr <;> cases wr <;> cases sr <;> cases pr <;>
      cases cr <;>
      simp [Launcher.launch, result_from_windows, result_from_channel,
        Channel.create, OsCall.mutexOwnedB]
  · simp [Launcher.launch, result_from_windows, result_from_channel,
      Channel.create]

/-- Claim C5: both events of every bundle are created manual-reset and
initially unsignaled; every event creation in any trace passes those flags,
and a successful attempt contains exactly two such event creations. -/
theorem events_manual_reset_unsignaled (l : Launcher) (os : OsBehavior)
    (exe : String) (f m wv sv : Handle) (info : PROCESS_INFORMATION) :
    ((Launcher.launch l os exe).2.2.all OsCall.eventFlagsB = true) ∧
    ((Launcher.launch l
        { fileMappingRes := .ok f, mutexRes := .ok m, waitEventRes := .ok wv,
          signalEventRes := .ok sv, createProcessRes := .ok info,
          channelCreateRes := .ok () } exe).2.2.countP
      (fun c =>
        decide (c = OsCall.createEventW (some handle_attr) true false none))
      = 2) := by
  constructor
  · obtain ⟨fr, mr, wr, sr, pr, cr⟩ := os
    cases fr <;> cases mr <;> cases wr <;> cases sr <;> cases pr <;>
      cases cr <;>
      simp [Launcher.launch, result_from_windows, result_from_channel,
        Channel.create, OsCall.eventFlagsB]
  · simp [Launcher.launch, result_from_windows, result_from_channel,
      Channel.create, List.countP_cons]

/-- Claim C6: the shared-memory segment of every bundle is created through
the paging file (`INVALID_HANDLE_VALUE` as the backing file), read-write,
with high size word 0 and low size word `CHANNEL_SIZE`; every file-mapping
creation in any trace has this shape, and a successful attempt contains
such a call. -/
theorem file_mapping_paging_backed (l : Launcher) (os : OsBehavior)
    (exe : String) (f m wv sv : Handle) (info : PROCESS_INFORMATION) :
    ((Launcher.launch l os exe).2.2.all OsCall.fileMappingShapeB = true) ∧
    OsCall.createFileMappingW INVALID_HANDLE_VALUE (some handle_attr)
        PAGE_READWRITE 0 CHANNEL_SIZE none ∈
      (Launcher.launch l
        { fileMappingRes := .ok f, mutexRes := .ok m, waitEventRes := .ok wv,
          signalEventRes := .ok sv, createProcessRes := .ok info,
          channelCreateRes := .ok () } exe).2.2 := by
  constructor
  · obtain ⟨fr, mr, wr, sr, pr, cr⟩ := os
    cases fr <;> cases mr <;> cases wr <;> cases sr <;> cases pr <;>
      cases cr <;>
      simp [Launcher.launch, result_from_windows, result_from_channel,
        Channel.create, OsCall.fileMappingShapeB]
  · simp [Launcher.launch, result_from_windows, result_from_channel,
      Channel.create]

/-- Claim C10: when process creation succeeds but channel finalization
fails, `launch` returns the channel-layer error, appends no child, and the
trace contains no `closeHandle` or `terminateProcess` call: the process and
thread handles of the already-started child are simply discarded. -/
theorem launch_channel_failure_discards_process (l : Launcher) (exe : String)
    (f m wv sv : Handle) (info : PROCESS_INFORMATION) (e : ChannelError) :
    ((Launcher.launch l
        { fileMappingRes := .ok f, mutexRes := .ok m, waitEventRes := .ok wv,
          signalEventRes := .ok sv, createProcessRes := .ok info,
          channelCreateRes := .error e } exe).1 =
      .error (Error.ChannelErr e)) ∧
    ((Launcher.launch l
        { fileMappingRes := .ok f, mutexRes := .ok m, waitEventRes := .ok wv,
          signalEventRes := .ok sv, createProcessRes := .ok info,
          channelCreateRes := .error e } exe).2.1 = l) ∧
    ((Launcher.launch l
        { fileMappingRes := .ok f, mutexRes := .ok m, waitEventRes := .ok wv,
          signalEventRes := .ok sv, createProcessRes := .ok info,
          channelCreateRes := .error e } exe).2.2.all
      (fun c => !c.isCleanupB) = true) := by
  refine ⟨rfl, rfl, ?_⟩
  simp [Launcher.launch, result_from_windows, result_from_channel,
    Channel.create, OsCall.isCleanupB]

/-- Claim C1 (evaluation at the failing input): when the third of the four
primitive creations fails after the file mapping and the mutex were created,
`launch` returns the underlying OS error, but its complete OS-call trace is
just the three creation calls — it contains no `closeHandle`, so the two
already-created handles are NOT closed before the error is returned,
contrary to the claim. -/
theorem launch_leaks_on_third_failure :
    ((Launcher.launch { children := [] } thirdCreationFails "child.exe").1 =
      .error (Error.Windows { code := 1450 })) ∧
    ((Launcher.launch { children := [] } thirdCreationFails "child.exe").2.2 =
      [OsCall.createFileMappingW INVALID_HANDLE_VALUE (some handle_attr)
         PAGE_READWRITE 0 CHANNEL_SIZE none,
       OsCall.createMutexW (some handle_attr) true none,
       OsCall.createEventW (some handle_attr) true false none]) ∧
    ((Launcher.launch { children := [] } thirdCreationFails
        "child.exe").2.2.countP (fun c => OsCall.isCleanupB c) = 0) :=
  ⟨rfl, rfl, rfl⟩

/-- One launch attempt either leaves the children untouched or appends
exactly the child built from the fresh handles of the current world. -/
theorem runLaunch_children_cases (w : World) (l : Launcher)
    (s : LaunchSchedule) (exe : String) :
    ((runLaunch w l s exe).1.2.1.children = l.children) ∨
    ((runLaunch w l s exe).1.2.1.children = l.children ++
      [{ info := { hProcess := w.nextHandle + 4, hThread := w.nextHandle + 5,
                   dwProcessId := w.nextPid, dwThreadId := w.nextPid + 1 },
         channel := { args := { exe := exe, file := w.nextHandle,
                                mutex := w.nextHandle + 1,
                                wait_event := w.nextHandle + 2,
                                signal_event := w.nextHandle + 3 } } }]) := by
  obtain ⟨fO, mO, wO, sO, pO, cO, eW, eC⟩ := s
  cases fO <;> cases mO <;> cases wO <;> cases sO <;> cases pO <;> cases cO <;>
    simp [runLaunch, mkOsBehavior, Launcher.launch, result_from_windows,
      result_from_channel, Channel.create]

/-- One launch attempt preserves the allocator invariant. -/
theorem runLaunch_inv (w : World) (l : Launcher) (s : LaunchSchedule)
    (exe : String) (h : LaunchInv w l) :
    LaunchInv (runLaunch w l s exe).2 (runLaunch w l s exe).1.2.1 := by
  have hadv : (runLaunch w l s exe).2.nextHandle = w.nextHandle + 6 := rfl
  rcases runLaunch_children_cases w l s exe with hc | hc
  · constructor
    · intro c hmem
      rw [hc] at hmem
      obtain ⟨h1, h2⟩ := h.1 c hmem
      rw [hadv]
      exact ⟨by linarith, by linarith⟩
    · rw [hc]
      exact h.2
  · constructor
    · intro c hmem
      rw [hc] at hmem
      rw [hadv]
      rcases List.mem_append.mp hmem with hold | hnew
      · obtain ⟨h1, h2⟩ := h.1 c hold
        exact ⟨by linarith, by linarith⟩
      · rw [List.mem_singleton] at hnew
        subst hnew
        exact ⟨by simp, by simp⟩
    · rw [hc, List.pairwise_append]
      refine ⟨h.2, List.pairwise_singleton _ _, ?_⟩
      intro a ha b hb
      rw [List.mem_singleton] at hb
      subst hb
      obtain ⟨h1, h2⟩ := h.1 a ha
      constructor
      · show a.info.hProcess ≠ w.nextHandle + 4
        intro he
        rw [he] at h1
        linarith
      · intro heq
        rw [heq] at h2
        simp at h2

/-- Any sequence of launch attempts preserves the allocator invariant. -/
theorem runLaunches_inv (xs : List (LaunchSchedule × String)) :
    ∀ w l, LaunchInv w l →
      LaunchInv (runLaunches w l xs).2 (runLaunches w l xs).1 := by
  induction xs with
  | nil => intro w l h; exact h
  | cons p rest ih =>
      intro w l h
      obtain ⟨s, exe⟩ := p
      exact ih _ _ (runLaunch_inv w l s exe h)

/-- Claim C8: after any sequence of launch attempts on one launcher (each
attempt succeeding or failing at any of its six steps), no two children of
the launcher share a process handle or a channel — the process identity of
every child is unique across the collection. -/
theorem children_process_identity_unique
    (xs : List (LaunchSchedule × String)) (w : World) :
    (runLaunches w { children := [] } xs).1.children.Pairwise
      (fun a b => a.info.hProcess ≠ b.info.hProcess ∧ a.channel ≠ b.channel) := by
  have h := runLaunches_inv xs w { children := [] }
    ⟨(by simp), List.Pairwise.nil⟩
  exact h.2

/-- Every reachable state of the handshake is one of the twelve phases of
some round: the waits of the two sides make the interleaving lock-step. -/
theorem reach_chanInv (s : ChanState) (h : Reach s) : ChanInv s := by
  induction h with
  | init => exact ⟨0, Phase.p1, rfl⟩
  | stepW hr hstep ih =>
      obtain ⟨n, i, rfl⟩ := ih
      cases i <;> cases hstep <;>
        first
          | exact ⟨n, Phase.p2, rfl⟩
          | exact ⟨n, Phase.p3, rfl⟩
          | exact ⟨n, Phase.p4, rfl⟩
          | exact ⟨n, Phase.p5, rfl⟩
          | exact ⟨n, Phase.p12, rfl⟩
          | exact ⟨n + 1, Phase.p1, rfl⟩
          | simp_all [chanShape]
  | stepR hr hstep ih =>
      obtain ⟨n, i, rfl⟩ := ih
      cases i <;> cases hstep <;>
        first
          | exact ⟨n, Phase.p6, rfl⟩
          | exact ⟨n, Phase.p7, rfl⟩
          | exact ⟨n, Phase.p8, rfl⟩
          | exact ⟨n, Phase.p9, rfl⟩
          | exact ⟨n, Phase.p10, rfl⟩
          | exact ⟨n, Phase.p11, rfl⟩
          | simp_all [chanShape]

/-- Claim C9: in the handshake protocol, at most one message is in flight
per direction (the number of copies performed never exceeds the number of
acknowledgments by more than one), the copy step only ever runs when the
previous message has been acknowledged (the occupied slot is never
overwritten), a write-path invocation waiting on `ack_event` has no enabled
step while the event is unsignaled, and no write-path step signals
`ack_event` — only the read path can unblock it. -/
theorem handshake_single_slot (s t : ChanState) (h : Reach s) :
    (s.written ≤ s.acked + 1) ∧
    (s.wp = WriterPc.copy → s.written = s.acked) ∧
    (s.wp = WriterPc.waitAck → s.ack = false → ¬ WriterStep s t) ∧
    (WriterStep s t → s.ack = false → t.ack = false) := by
  obtain ⟨n, i, rfl⟩ := reach_chanInv s h
  refine ⟨?_, ?_, ?_, ?_⟩
  · cases i <;> simp [chanShape]
  · cases i <;> simp [chanShape]
  · intro hpc hack hstep
    cases i <;> cases hstep <;> simp_all [chanShape]
  · intro hstep hack
    cases i <;> cases hstep <;> simp_all [chanShape]

/-- Witness for C9: the state right after the first write has been copied
and signaled, with the writer blocked on the unsignaled `ack_event`. -/
theorem handshake_single_slot_witness :
    ((chanShape 0 Phase.p5).written ≤ (chanShape 0 Phase.p5).acked + 1) ∧
    ((chanShape 0 Phase.p5).wp = WriterPc.copy →
      (chanShape 0 Phase.p5).written = (chanShape 0 Phase.p5).acked) ∧
    ((chanShape 0 Phase.p5).wp = WriterPc.waitAck →
      (chanShape 0 Phase.p5).ack = false →
      ¬ WriterStep (chanShape 0 Phase.p5) (chanShape 0 Phase.p6)) ∧
    (WriterStep (chanShape 0 Phase.p5) (chanShape 0 Phase.p6) →
      (chanShape 0 Phase.p5).ack = false →
      (chanShape 0 Phase.p6).ack = false) := by
  apply handshake_single_slot
  exact Reach.stepW (Reach.stepW (Reach.stepW (Reach.stepW Reach.init
    (WriterStep.acquire _ rfl rfl)) (WriterStep.copy _ rfl))
    (WriterStep.release _ rfl)) (WriterStep.setReady _ rfl)
